import Mathlib

/-!
Shallow embedding of the tinyland-activity-feed package.

The source is a small TypeScript library: three normalizers mapping raw
blog-post / profile / product items to a canonical `ActivityItem`, an
aggregator `loadAllActivity` that invokes up to three configured loader
callbacks (swallowing loader failures), sorts the merged result by date
descending, and five query entry points built on it.

Modelling conventions:
  * Optional JavaScript fields become `Option`; an explicit `undefined`
    value and an absent field coincide as `none` (except in the config
    merge, where presence of a key matters and is modelled separately).
  * JavaScript `a || b` on strings is falsy exactly on `""` and
    `undefined`; the helpers `jsOrOpt` / `jsOrStr` / `strOr` encode it.
  * Loader callbacks are `Unit → Except Unit (List _)`: `Except.error`
    models a thrown exception.
  * The ambient wall clock (`new Date().toISOString()`) is the explicit
    parameter `now`, and the timestamp reading `new Date(s).getTime()`
    used by the sort comparator is the explicit parameter `ts`.
  * `Array.prototype.sort` with comparator `(a, b) => dateB - dateA` is
    required stable by ECMAScript and orders by that comparator, so it is
    modelled as a stable insertion sort with respect to the relation
    `ts b.date ≤ ts a.date` (date descending).
-/

/-- JS truthiness of a possibly-absent string: `undefined` and `""` are falsy. -/
def truthyS : Option String → Bool
  | some s => s ≠ ""
  | none => false

/-- JS `a || b` where both operands are possibly-absent strings; returns `b` verbatim when `a` is falsy. -/
def jsOrOpt (a b : Option String) : Option String :=
  if truthyS a then a else b

/-- JS `a || d` where `a` is a possibly-absent string and `d` a string default. -/
def jsOrStr (a : Option String) (d : String) : String :=
  match a with
  | some v => if v = "" then d else v
  | none => d

/-- JS `a || d` on two required strings. -/
def strOr (a d : String) : String :=
  if a = "" then d else a

/-- JS `xs?.[0]`: first element of a possibly-absent array, absent when the array is absent or empty. -/
def optHead (l : Option (List String)) : Option String :=
  match l with
  | some (h :: _) => some h
  | _ => none

/-- JS `s.toLowerCase()`, modelled characterwise. -/
def jsToLower (s : String) : String :=
  String.mk (s.data.map Char.toLower)

/-- JS `s.trim()`: strip whitespace from both ends. -/
def jsTrim (s : String) : String :=
  String.mk (((s.data.dropWhile Char.isWhitespace).reverse.dropWhile Char.isWhitespace).reverse)

/-- Substring test on character lists: does `needle` occur contiguously inside `hay`? -/
def containsSub (needle : List Char) : List Char → Bool
  | [] => needle.isPrefixOf ([] : List Char)
  | c :: t => needle.isPrefixOf (c :: t) || containsSub needle t

/-- JS `hay.includes(needle)` on strings. -/
def jsIncludes (hay needle : String) : Bool :=
  containsSub needle.data hay.data

/-- A raw post's `author` field: either a plain string or an object carrying a `name`. -/
inductive RawAuthor where
  | str (s : String)
  | obj (name : String)
deriving DecidableEq

/-- Raw blog post item accepted from the blog-post loader (`BlogPostItem` in types.ts). -/
structure BlogPostItem where
  title : String
  slug : String
  excerpt : Option String
  description : Option String
  date : Option String
  publishedAt : Option String
  featuredImage : Option String
  coverImage : Option String
  heroImage : Option String
  author : Option RawAuthor
  category : Option String
  categories : Option (List String)
  tags : Option (List String)
  published : Option Bool
  draft : Option Bool

/-- Raw profile item accepted from the profile loader (`ProfileItem` in types.ts). -/
structure ProfileItem where
  name : Option String
  displayName : Option String
  slug : String
  bio : Option String
  publishedAt : Option String
  updatedAt : Option String
  joinedDate : Option String
  avatar : Option String
  imageUrl : Option String
  role : Option String
  tags : Option (List String)
  interests : Option (List String)

/-- Raw product item accepted from the product loader (`ProductItem` in types.ts). -/
structure ProductItem where
  name : String
  slug : String
  excerpt : Option String
  description : Option String
  publishedAt : Option String
  updatedAt : Option String
  image : Option String
  category : Option String
  tags : Option (List String)
  license : Option String

/-- Discriminant of a canonical activity item. -/
inductive ActivityType where
  | post
  | profile
  | product
deriving DecidableEq

/-- Canonical activity item (`ActivityItem` in types.ts). -/
structure ActivityItem where
  type : ActivityType
  title : String
  slug : String
  excerpt : String
  date : String
  image : Option String
  author : Option String
  category : Option String
  tags : Option (List String)
  productCategory : Option String
  profileRole : Option String
  license : Option String
deriving DecidableEq

/-- `blogPostToActivity` from feed.ts: excludes the post when
`published === false` or `draft === true`, otherwise normalizes it.
`now` is the wall-clock reading used for the `new Date().toISOString()` fallback. -/
def blogPostToActivity (now : String) (post : BlogPostItem) : Option ActivityItem :=
  if post.published = some false ∨ post.draft = some true then
    none
  else
    some
      { type := ActivityType.post
        title := strOr post.title post.slug
        slug := post.slug
        excerpt := jsOrStr (jsOrOpt post.excerpt post.description) ""
        date := jsOrStr (jsOrOpt post.date post.publishedAt) now
        image := jsOrOpt (jsOrOpt post.featuredImage post.coverImage) post.heroImage
        author := some
          (match post.author with
           | some (RawAuthor.obj n) => n
           | some (RawAuthor.str s) => if s = "" then "Unknown" else s
           | none => "Unknown")
        category := jsOrOpt (optHead post.categories) post.category
        tags := some (post.tags.getD [])
        productCategory := none
        profileRole := none
        license := none }

/-- `profileToActivity` from feed.ts. -/
def profileToActivity (now : String) (profile : ProfileItem) : ActivityItem :=
  { type := ActivityType.profile
    title := jsOrStr (jsOrOpt profile.name profile.displayName) "Community Member"
    slug := profile.slug
    excerpt := jsOrStr profile.bio ""
    date := jsOrStr (jsOrOpt (jsOrOpt profile.publishedAt profile.updatedAt) profile.joinedDate) now
    image := jsOrOpt profile.avatar profile.imageUrl
    author := some (jsOrStr (jsOrOpt profile.name profile.displayName) "Community Member")
    category := some "profile"
    tags := some (profile.tags.getD (profile.interests.getD []))
    productCategory := none
    profileRole := profile.role
    license := none }

/-- `productToActivity` from feed.ts. -/
def productToActivity (now : String) (product : ProductItem) : ActivityItem :=
  { type := ActivityType.product
    title := product.name
    slug := product.slug
    excerpt := jsOrStr (jsOrOpt product.excerpt product.description) ""
    date := jsOrStr (jsOrOpt product.publishedAt product.updatedAt) now
    image := product.image
    author := none
    category := some "product"
    tags := some (product.tags.getD [])
    productCategory := product.category
    profileRole := none
    license := product.license }

/-- Configuration holding up to three loader callbacks (`ActivityFeedConfig` in types.ts).
A loader either returns a list of raw items or fails (models a thrown exception). -/
structure ActivityFeedConfig where
  loadBlogPosts : Option (Unit → Except Unit (List BlogPostItem))
  loadProfiles : Option (Unit → Except Unit (List ProfileItem))
  loadProducts : Option (Unit → Except Unit (List ProductItem))

/-- An update record passed to `configure`. Each field distinguishes a key
that is absent from the object (outer `none`) from a key explicitly present
with the `undefined` value (`some none`), because JS object spread copies
explicitly-`undefined` keys. -/
structure ConfigUpdate where
  loadBlogPosts : Option (Option (Unit → Except Unit (List BlogPostItem)))
  loadProfiles : Option (Option (Unit → Except Unit (List ProfileItem)))
  loadProducts : Option (Option (Unit → Except Unit (List ProductItem)))

/-- `configure` from config.ts: `_config = { ..._config, ...config }`, a shallow
merge in which every key present in the update (even with value `undefined`)
overwrites the current slot. -/
def configure (current : ActivityFeedConfig) (u : ConfigUpdate) : ActivityFeedConfig :=
  { loadBlogPosts :=
      match u.loadBlogPosts with
      | some v => v
      | none => current.loadBlogPosts
    loadProfiles :=
      match u.loadProfiles with
      | some v => v
      | none => current.loadProfiles
    loadProducts :=
      match u.loadProducts with
      | some v => v
      | none => current.loadProducts }

/-- `getConfig` from config.ts: returns a shallow copy of the current
configuration; a copy of an immutable value is the value itself. -/
def getConfig (current : ActivityFeedConfig) : ActivityFeedConfig :=
  current

/-- `resetConfig` from config.ts: clears all loader slots. -/
def resetConfig : ActivityFeedConfig :=
  { loadBlogPosts := none, loadProfiles := none, loadProducts := none }

/-- Items contributed by one loader slot: empty when the slot is unset and
when the loader throws, otherwise the returned list. -/
def loaderItems {α : Type} (slot : Option (Unit → Except Unit (List α))) : List α :=
  match slot with
  | none => []
  | some load =>
    match load () with
    | Except.error _ => []
    | Except.ok xs => xs

/-- The order the sort comparator `(a, b) => dateB - dateA` establishes:
`a` may precede `b` when `a`'s timestamp is at least `b`'s. -/
def dateDesc (ts : String → Int) (a b : ActivityItem) : Prop :=
  ts b.date ≤ ts a.date

instance (ts : String → Int) : DecidableRel (dateDesc ts) :=
  fun a b => Int.decLe (ts b.date) (ts a.date)

/-- `loadAllActivity` from feed.ts: normalize the items of every configured,
succeeding loader (dropping excluded posts), concatenate, and sort by
`new Date(date).getTime()` descending. `ts` is the timestamp reading of a
date string and `now` the wall-clock reading for missing-date fallbacks. -/
def loadAllActivity (config : ActivityFeedConfig) (ts : String → Int) (now : String) : List ActivityItem :=
  List.insertionSort (dateDesc ts)
    ((loaderItems config.loadBlogPosts).filterMap (blogPostToActivity now) ++
     (loaderItems config.loadProfiles).map (profileToActivity now) ++
     (loaderItems config.loadProducts).map (productToActivity now))

/-- `getRecentActivityServer` from feed.ts; `limit` defaults to 10. -/
def getRecentActivityServer (config : ActivityFeedConfig) (ts : String → Int) (now : String)
    (limit : Nat := 10) : List ActivityItem :=
  (loadAllActivity config ts now).take limit

/-- `getActivityByTypeServer` from feed.ts; an omitted `limit` is `none`. -/
def getActivityByTypeServer (config : ActivityFeedConfig) (ts : String → Int) (now : String)
    (type : ActivityType) (limit : Option Nat) : List ActivityItem :=
  let filtered := (loadAllActivity config ts now).filter (fun item => item.type = type)
  match limit with
  | some l => filtered.take l
  | none => filtered

/-- `getActivityByCategoryServer` from feed.ts. -/
def getActivityByCategoryServer (config : ActivityFeedConfig) (ts : String → Int) (now : String)
    (category : String) (limit : Option Nat) : List ActivityItem :=
  let filtered := (loadAllActivity config ts now).filter
    (fun item => item.category = some category ∨ item.productCategory = some category)
  match limit with
  | some l => filtered.take l
  | none => filtered

/-- `getActivityByTagServer` from feed.ts: `item.tags?.includes(tag)`. -/
def getActivityByTagServer (config : ActivityFeedConfig) (ts : String → Int) (now : String)
    (tag : String) (limit : Option Nat) : List ActivityItem :=
  let filtered := (loadAllActivity config ts now).filter
    (fun item =>
      match item.tags with
      | some tags => tags.contains tag
      | none => false)
  match limit with
  | some l => filtered.take l
  | none => filtered

/-- The filter body of `searchActivityServer`: the lowercased search term is a
substring of the lowercased title, excerpt, author (when present), or some tag. -/
def itemMatches (searchTerm : String) (item : ActivityItem) : Bool :=
  jsIncludes (jsToLower item.title) searchTerm ||
  jsIncludes (jsToLower item.excerpt) searchTerm ||
  (match item.author with
   | some a => jsIncludes (jsToLower a) searchTerm
   | none => false) ||
  (match item.tags with
   | some tags => tags.any (fun tag => jsIncludes (jsToLower tag) searchTerm)
   | none => false)

/-- `searchActivityServer` from feed.ts: empty result on an empty or
whitespace-only query, otherwise a case-insensitive substring filter with the
lowercased (untrimmed) query. -/
def searchActivityServer (config : ActivityFeedConfig) (ts : String → Int) (now : String)
    (query : String) (limit : Option Nat) : List ActivityItem :=
  if query = "" ∨ jsTrim query = "" then
    []
  else
    let filtered := (loadAllActivity config ts now).filter (itemMatches (jsToLower query))
    match limit with
    | some l => filtered.take l
    | none => filtered

/-- One loader slot with every failing loader replaced by an unset slot;
`loadAllActivity` cannot tell the two apart. -/
def dropFailSlot {α : Type} (slot : Option (Unit → Except Unit (List α))) :
    Option (Unit → Except Unit (List α)) :=
  match slot with
  | none => none
  | some load =>
    match load () with
    | Except.error _ => none
    | Except.ok _ => some load

/-- A configuration with every failing loader replaced by an unset slot. -/
def dropFailing (config : ActivityFeedConfig) : ActivityFeedConfig :=
  { loadBlogPosts := dropFailSlot config.loadBlogPosts
    loadProfiles := dropFailSlot config.loadProfiles
    loadProducts := dropFailSlot config.loadProducts }

/-- How many of the three type-specific optional fields of an item are populated. -/
def typeSpecificPopulated (item : ActivityItem) : Nat :=
  (if item.productCategory.isSome then 1 else 0) +
  (if item.profileRole.isSome then 1 else 0) +
  (if item.license.isSome then 1 else 0)

/-- A raw post carries an effective date: its `date || publishedAt` chain is truthy,
so normalization never consults the wall clock. -/
def postHasDate (post : BlogPostItem) : Bool :=
  truthyS (jsOrOpt post.date post.publishedAt)

/-- A raw profile carries an effective date (`publishedAt || updatedAt || joinedDate`). -/
def profileHasDate (profile : ProfileItem) : Bool :=
  truthyS (jsOrOpt (jsOrOpt profile.publishedAt profile.updatedAt) profile.joinedDate)

/-- A raw product carries an effective date (`publishedAt || updatedAt`). -/
def productHasDate (product : ProductItem) : Bool :=
  truthyS (jsOrOpt product.publishedAt product.updatedAt)

/-- A concrete timestamp reading for test fixtures: the length of the date string. -/
def tsLen (s : String) : Int :=
  Int.ofNat s.data.length

/-- Fixture: a plain visible blog post. -/
def basePost : BlogPostItem :=
  { title := "Hello", slug := "hello", excerpt := none, description := none,
    date := some "dd", publishedAt := none, featuredImage := none, coverImage := none,
    heroImage := none, author := none, category := none, categories := none,
    tags := none, published := none, draft := none }

/-- Fixture: the canonical item `basePost` normalizes to (wall clock "NW"). -/
def itemHello : ActivityItem :=
  { type := ActivityType.post, title := "Hello", slug := "hello", excerpt := "",
    date := "dd", image := none, author := some "Unknown", category := none,
    tags := some [], productCategory := none, profileRole := none, license := none }

/-- Fixture: a configuration with only a blog-post loader. -/
def cfgPosts : ActivityFeedConfig :=
  { loadBlogPosts := some (fun _ => Except.ok [basePost]),
    loadProfiles := none, loadProducts := none }

/-- Fixture: a plain profile. -/
def baseProfile : ProfileItem :=
  { name := some "Ann", displayName := none, slug := "ann", bio := none,
    publishedAt := some "pdate", updatedAt := none, joinedDate := none,
    avatar := none, imageUrl := none, role := some "admin", tags := none,
    interests := none }

/-- Fixture: a blog-post loader that throws. -/
def failB : Unit → Except Unit (List BlogPostItem) :=
  fun _ => Except.error ()

/-- Fixture: a failing blog-post loader next to a working profile loader. -/
def cfgMixed : ActivityFeedConfig :=
  { loadBlogPosts := some failB,
    loadProfiles := some (fun _ => Except.ok [baseProfile]),
    loadProducts := none }

/-- Fixture: all three loaders configured and all failing. -/
def cfgAllFail : ActivityFeedConfig :=
  { loadBlogPosts := some failB,
    loadProfiles := some (fun _ => Except.error ()),
    loadProducts := some (fun _ => Except.error ()) }

/-- Fixture: a post whose title mentions tea, for search queries. -/
def postTea : BlogPostItem :=
  { basePost with title := "Tea Time", slug := "tea-time" }

/-- Fixture: the canonical item `postTea` normalizes to (wall clock "NW"). -/
def itemTea : ActivityItem :=
  { itemHello with title := "Tea Time", slug := "tea-time" }

/-- Fixture: a configuration whose only content is `postTea`. -/
def cfgSearch : ActivityFeedConfig :=
  { loadBlogPosts := some (fun _ => Except.ok [postTea]),
    loadProfiles := none, loadProducts := none }

/-- Fixture: a product populating both `category` and `license`. -/
def prodBoth : ProductItem :=
  { name := "Kit", slug := "kit", excerpt := none, description := none,
    publishedAt := some "pp", updatedAt := none, image := none,
    category := some "tools", tags := none, license := some "MIT" }

/-- Fixture: a post whose `excerpt` is present but the empty string while a
`description` is present and non-empty. -/
def postEmptyExcerpt : BlogPostItem :=
  { basePost with excerpt := some "", description := some "dd2" }

/-- Fixture: the canonical item `postEmptyExcerpt` normalizes to (wall clock "NW"). -/
def itemEmptyEx : ActivityItem :=
  { itemHello with excerpt := "dd2" }

/-- Fixture: a post with no `date` and no `publishedAt`. -/
def postNoDate : BlogPostItem :=
  { basePost with date := none }

/-- Fixture: a configuration whose only content is `postNoDate`. -/
def cfgNoDate : ActivityFeedConfig :=
  { loadBlogPosts := some (fun _ => Except.ok [postNoDate]),
    loadProfiles := none, loadProducts := none }

/-- Fixture: a loader returning no posts, for the configure witnesses. -/
def loadB1 : Unit → Except Unit (List BlogPostItem) :=
  fun _ => Except.ok []

/-- Fixture: a configuration in which the blog-post slot is set. -/
def cfgCur : ActivityFeedConfig :=
  { loadBlogPosts := some loadB1, loadProfiles := none, loadProducts := none }

/-- Fixture: an update whose blog-post key is present but explicitly undefined. -/
def updClear : ConfigUpdate :=
  { loadBlogPosts := some none, loadProfiles := none, loadProducts := none }

/-- Fixture: an update with no key at all. -/
def updEmpty : ConfigUpdate :=
  { loadBlogPosts := none, loadProfiles := none, loadProducts := none }

/-- Fixture: a post titled "Green", for the whitespace-in-query witness. -/
def postGreen : BlogPostItem :=
  { basePost with title := "Green", slug := "green" }

/-- Fixture: the canonical item `postGreen` normalizes to (wall clock "NW"). -/
def itemGreen : ActivityItem :=
  { itemHello with title := "Green", slug := "green" }

/-- Fixture: a configuration whose only content is `postGreen`. -/
def cfgGreen : ActivityFeedConfig :=
  { loadBlogPosts := some (fun _ => Except.ok [postGreen]),
    loadProfiles := none, loadProducts := none }

/-! ## Supporting lemmas -/

lemma ne_empty_of_trim (q : String) (h : jsTrim q ≠ "") : q ≠ "" := by
  intro hq
  rw [hq] at h
  exact h rfl

lemma loadAllActivity_sorted (config : ActivityFeedConfig) (ts : String → Int) (now : String) :
    List.Pairwise (dateDesc ts) (loadAllActivity config ts now) := by
  haveI : IsTotal ActivityItem (dateDesc ts) :=
    ⟨fun a b => Int.le_total (ts b.date) (ts a.date)⟩
  haveI : IsTrans ActivityItem (dateDesc ts) :=
    ⟨fun _ _ _ h1 h2 => le_trans h2 h1⟩
  exact List.sorted_insertionSort (dateDesc ts) _

lemma loadAllActivity_perm (config : ActivityFeedConfig) (ts : String → Int) (now : String) :
    (loadAllActivity config ts now).Perm
      ((loaderItems config.loadBlogPosts).filterMap (blogPostToActivity now) ++
       (loaderItems config.loadProfiles).map (profileToActivity now) ++
       (loaderItems config.loadProducts).map (productToActivity now)) :=
  List.perm_insertionSort _ _

lemma mem_loadAllActivity (config : ActivityFeedConfig) (ts : String → Int) (now : String)
    (item : ActivityItem) :
    item ∈ loadAllActivity config ts now ↔
      (∃ post ∈ loaderItems config.loadBlogPosts, blogPostToActivity now post = some item) ∨
      (∃ profile ∈ loaderItems config.loadProfiles, profileToActivity now profile = item) ∨
      (∃ product ∈ loaderItems config.loadProducts, productToActivity now product = item) := by
  rw [(loadAllActivity_perm config ts now).mem_iff]
  simp [List.mem_append, List.mem_filterMap, List.mem_map, or_assoc]

lemma loaderItems_dropFailSlot {α : Type} (slot : Option (Unit → Except Unit (List α))) :
    loaderItems (dropFailSlot slot) = loaderItems slot := by
  unfold dropFailSlot loaderItems
  cases slot with
  | none => rfl
  | some load =>
    cases h : load () with
    | error e => simp [h]
    | ok xs => simp [h]

lemma loadAllActivity_dropFailing (config : ActivityFeedConfig) (ts : String → Int) (now : String) :
    loadAllActivity (dropFailing config) ts now = loadAllActivity config ts now := by
  simp only [loadAllActivity, dropFailing, loaderItems_dropFailSlot]

lemma queryOps_of_empty (config : ActivityFeedConfig) (ts : String → Int) (now : String)
    (h : loadAllActivity config ts now = []) :
    (∀ n, getRecentActivityServer config ts now n = []) ∧
    (∀ type limit, getActivityByTypeServer config ts now type limit = []) ∧
    (∀ category limit, getActivityByCategoryServer config ts now category limit = []) ∧
    (∀ tag limit, getActivityByTagServer config ts now tag limit = []) ∧
    (∀ query limit, searchActivityServer config ts now query limit = []) := by
  refine ⟨fun n => ?_, fun t l => ?_, fun c l => ?_, fun tg l => ?_, fun q l => ?_⟩
  · simp [getRecentActivityServer, h]
  · cases l <;> simp [getActivityByTypeServer, h]
  · cases l <;> simp [getActivityByCategoryServer, h]
  · cases l <;> simp [getActivityByTagServer, h]
  · by_cases hq : (q = "" ∨ jsTrim q = "")
    · simp [searchActivityServer, hq]
    · cases l <;> simp [searchActivityServer, hq, h]

lemma searchActivity_eq_filter (config : ActivityFeedConfig) (ts : String → Int) (now : String)
    (q : String) (limit : Option Nat) (h : jsTrim q ≠ "") :
    searchActivityServer config ts now q limit =
      match limit with
      | some l => ((loadAllActivity config ts now).filter (itemMatches (jsToLower q))).take l
      | none => (loadAllActivity config ts now).filter (itemMatches (jsToLower q)) := by
  have hq : q ≠ "" := ne_empty_of_trim q h
  simp [searchActivityServer, hq, h]

lemma itemMatches_eq_true_iff (st : String) (item : ActivityItem) :
    itemMatches st item = true ↔
      (jsIncludes (jsToLower item.title) st = true ∨
       jsIncludes (jsToLower item.excerpt) st = true ∨
       (∃ a, item.author = some a ∧ jsIncludes (jsToLower a) st = true) ∨
       (∃ tags, item.tags = some tags ∧ ∃ tag ∈ tags, jsIncludes (jsToLower tag) st = true)) := by
  unfold itemMatches
  cases ha : item.author <;> cases ht : item.tags <;>
    simp [ha, ht, List.any_eq_true, Bool.or_eq_true, or_assoc]

lemma isPrefixOf_iff_exists (n h : List Char) :
    n.isPrefixOf h = true ↔ ∃ t, h = n ++ t := by
  induction n generalizing h with
  | nil => simp [List.isPrefixOf]
  | cons a as ih =>
    cases h with
    | nil => simp [List.isPrefixOf]
    | cons b bs =>
      simp only [List.isPrefixOf, Bool.and_eq_true, beq_iff_eq, ih, List.cons_append,
        List.cons.injEq]
      constructor
      · rintro ⟨hab, t, hbs⟩
        exact ⟨t, hab.symm, hbs⟩
      · rintro ⟨t, hba, hbs⟩
        exact ⟨hba.symm, t, hbs⟩

lemma containsSub_iff_exists (n h : List Char) :
    containsSub n h = true ↔ ∃ l r, h = l ++ n ++ r := by
  induction h with
  | nil =>
    rw [containsSub, isPrefixOf_iff_exists]
    constructor
    · rintro ⟨t, ht⟩
      exact ⟨[], t, by simpa using ht⟩
    · rintro ⟨l, r, hlr⟩
      have h0 : l ++ n ++ r = [] := hlr.symm
      rcases List.append_eq_nil.1 h0 with ⟨h1, h2⟩
      rcases List.append_eq_nil.1 h1 with ⟨_, h4⟩
      exact ⟨r, by simp [h4, h2]⟩
  | cons c t ih =>
    rw [containsSub, Bool.or_eq_true, isPrefixOf_iff_exists, ih]
    constructor
    · rintro (⟨r, hr⟩ | ⟨l, r, hlr⟩)
      · exact ⟨[], r, by simpa using hr⟩
      · exact ⟨c :: l, r, by simp [hlr]⟩
    · rintro ⟨l, r, hlr⟩
      cases l with
      | nil => exact Or.inl ⟨r, by simpa using hlr⟩
      | cons x xs =>
        right
        have hx : c = x ∧ t = xs ++ n ++ r := by simpa using hlr
        exact ⟨xs, r, hx.2⟩

lemma jsIncludes_iff_exists (hay needle : String) :
    jsIncludes hay needle = true ↔ ∃ l r, hay.data = l ++ needle.data ++ r := by
  unfold jsIncludes
  exact containsSub_iff_exists _ _

lemma jsOrStr_clock (a : Option String) (d1 d2 : String) (h : truthyS a = true) :
    jsOrStr a d1 = jsOrStr a d2 := by
  cases a with
  | none => simp [truthyS] at h
  | some v =>
    simp only [truthyS, decide_eq_true_eq] at h
    simp [jsOrStr, h]

lemma blogPostToActivity_clock (now1 now2 : String) (post : BlogPostItem)
    (h : postHasDate post = true) :
    blogPostToActivity now1 post = blogPostToActivity now2 post := by
  unfold postHasDate at h
  unfold blogPostToActivity
  rw [jsOrStr_clock _ now1 now2 h]

lemma profileToActivity_clock (now1 now2 : String) (profile : ProfileItem)
    (h : profileHasDate profile = true) :
    profileToActivity now1 profile = profileToActivity now2 profile := by
  unfold profileHasDate at h
  unfold profileToActivity
  rw [jsOrStr_clock _ now1 now2 h]

lemma productToActivity_clock (now1 now2 : String) (product : ProductItem)
    (h : productHasDate product = true) :
    productToActivity now1 product = productToActivity now2 product := by
  unfold productHasDate at h
  unfold productToActivity
  rw [jsOrStr_clock _ now1 now2 h]

lemma loadAllActivity_clock (config : ActivityFeedConfig) (ts : String → Int)
    (now1 now2 : String)
    (hb : ∀ post ∈ loaderItems config.loadBlogPosts, postHasDate post = true)
    (hr : ∀ profile ∈ loaderItems config.loadProfiles, profileHasDate profile = true)
    (hd : ∀ product ∈ loaderItems config.loadProducts, productHasDate product = true) :
    loadAllActivity config ts now1 = loadAllActivity config ts now2 := by
  unfold loadAllActivity
  rw [List.filterMap_congr (fun post hp => blogPostToActivity_clock now1 now2 post (hb post hp)),
      List.map_congr_left (fun profile hp => profileToActivity_clock now1 now2 profile (hr profile hp)),
      List.map_congr_left (fun product hp => productToActivity_clock now1 now2 product (hd product hp))]

lemma blogPost_excerpt_eq (now : String) (post : BlogPostItem) (item : ActivityItem)
    (h : blogPostToActivity now post = some item) :
    item.excerpt = jsOrStr (jsOrOpt post.excerpt post.description) "" := by
  unfold blogPostToActivity at h
  split at h
  · exact Option.noConfusion h
  · have heq := Option.some.inj h
    subst heq
    rfl

lemma excerptChain (a b : Option String) :
    (∀ e, a = some e → e ≠ "" → jsOrStr (jsOrOpt a b) "" = e) ∧
    ((a = none ∨ a = some "") → ∀ d, b = some d → d ≠ "" → jsOrStr (jsOrOpt a b) "" = d) ∧
    ((a = none ∨ a = some "") → (b = none ∨ b = some "") → jsOrStr (jsOrOpt a b) "" = "") := by
  refine ⟨?_, ?_, ?_⟩
  · rintro e rfl he
    simp [jsOrOpt, truthyS, jsOrStr, he]
  · rintro (rfl | rfl) d rfl hd <;> simp [jsOrOpt, truthyS, jsOrStr, hd]
  · rintro (rfl | rfl) (rfl | rfl) <;> simp [jsOrOpt, truthyS, jsOrStr]

/-! ## Claims -/

/-- C1: for every configuration, timestamp reading and clock reading,
`getRecentActivityServer n` returns the first `n` items of the full aggregate
sorted by date descending (hence at most `n` items), an omitted argument means
`limit = 10`, and every returned item comes from the normalized union of the
configured sources with excluded (draft/unpublished) posts dropped. -/
theorem getRecentActivity_spec (config : ActivityFeedConfig) (ts : String → Int)
    (now : String) (n : Nat) :
    getRecentActivityServer config ts now n = (loadAllActivity config ts now).take n ∧
    (getRecentActivityServer config ts now n).length ≤ n ∧
    List.Pairwise (dateDesc ts) (getRecentActivityServer config ts now n) ∧
    getRecentActivityServer config ts now = (loadAllActivity config ts now).take 10 ∧
    (∀ item ∈ getRecentActivityServer config ts now n,
      (∃ post ∈ loaderItems config.loadBlogPosts, blogPostToActivity now post = some item) ∨
      (∃ profile ∈ loaderItems config.loadProfiles, profileToActivity now profile = item) ∨
      (∃ product ∈ loaderItems config.loadProducts, productToActivity now product = item)) := by
  refine ⟨rfl, ?_, ?_, rfl, ?_⟩
  · simp [getRecentActivityServer, List.length_take]
  · exact List.Pairwise.sublist (List.take_sublist n _) (loadAllActivity_sorted config ts now)
  · intro item hmem
    exact (mem_loadAllActivity config ts now item).1 ((List.take_sublist n _).subset hmem)

/-- C1 witness: with a single configured blog-post loader returning `basePost`,
`getRecentActivityServer 1` contains exactly the normalization of `basePost`,
its length is at most 1, and the returned item is traced back to the loader. -/
theorem getRecentActivity_spec_witness :
    (getRecentActivityServer cfgPosts tsLen "NW" 1).length ≤ 1 ∧
    getRecentActivityServer cfgPosts tsLen "NW" 1 = [itemHello] ∧
    (∃ post ∈ loaderItems cfgPosts.loadBlogPosts, blogPostToActivity "NW" post = some itemHello) := by
  have h := getRecentActivity_spec cfgPosts tsLen "NW" 1
  refine ⟨h.2.1, by decide, ?_⟩
  have hmem := h.2.2.2.2 itemHello (by decide)
  rcases hmem with hm | hm | hm
  · exact hm
  · rcases hm with ⟨x, hx, _⟩
    simp [cfgPosts, loaderItems] at hx
  · rcases hm with ⟨x, hx, _⟩
    simp [cfgPosts, loaderItems] at hx

/-- C2: a raw post is excluded by normalization exactly when its `published`
field is the boolean `false` or its `draft` field is the boolean `true`; any
other (absent or different) value leaves the post visible. -/
theorem blogPostExclusion_iff (now : String) (post : BlogPostItem) :
    blogPostToActivity now post = none ↔
      (post.published = some false ∨ post.draft = some true) := by
  unfold blogPostToActivity
  by_cases h : (post.published = some false ∨ post.draft = some true)
  · simp [h]
  · simp [h]

/-- C5: for every query that is empty or whitespace-only, `searchActivityServer`
returns the empty sequence whatever the configured loaders and limit are. -/
theorem searchActivity_blank (config : ActivityFeedConfig) (ts : String → Int)
    (now : String) (limit : Option Nat) (q : String) (h : jsTrim q = "") :
    searchActivityServer config ts now q limit = [] := by
  simp [searchActivityServer, h]

/-- C5 witness: the empty query and a three-space query both return `[]` even
though the configured content matches any non-empty lowercase query. -/
theorem searchActivity_blank_witness :
    searchActivityServer cfgSearch tsLen "NW" "   " none = [] ∧
    searchActivityServer cfgSearch tsLen "NW" "" none = [] :=
  ⟨searchActivity_blank cfgSearch tsLen "NW" none "   " (by decide),
   searchActivity_blank cfgSearch tsLen "NW" none "" rfl⟩

/-- C9: a `configure` update whose loader key is present but explicitly
undefined clears that slot (a subsequent `getConfig` reports it unset), while
an update omitting the key leaves the slot unchanged: explicit undefined and
omitted are not treated the same. -/
theorem configure_explicitUndefined (current : ActivityFeedConfig) (u : ConfigUpdate) :
    (u.loadBlogPosts = some none → (getConfig (configure current u)).loadBlogPosts = none) ∧
    (u.loadBlogPosts = none →
      (getConfig (configure current u)).loadBlogPosts = current.loadBlogPosts) ∧
    (u.loadProfiles = some none → (getConfig (configure current u)).loadProfiles = none) ∧
    (u.loadProfiles = none →
      (getConfig (configure current u)).loadProfiles = current.loadProfiles) ∧
    (u.loadProducts = some none → (getConfig (configure current u)).loadProducts = none) ∧
    (u.loadProducts = none →
      (getConfig (configure current u)).loadProducts = current.loadProducts) := by
  refine ⟨fun h => ?_, fun h => ?_, fun h => ?_, fun h => ?_, fun h => ?_, fun h => ?_⟩ <;>
    simp [getConfig, configure, h]

/-- C9 witness: starting from a configuration whose blog-post slot is set, the
update `{ loadBlogPosts: undefined }` clears the slot while the empty update
preserves it. -/
theorem configure_explicitUndefined_witness :
    (getConfig (configure cfgCur updClear)).loadBlogPosts = none ∧
    (getConfig (configure cfgCur updEmpty)).loadBlogPosts = some loadB1 := by
  have h1 := (configure_explicitUndefined cfgCur updClear).1 rfl
  have h2 := (configure_explicitUndefined cfgCur updEmpty).2.1 rfl
  exact ⟨h1, h2.trans rfl⟩

/-- C3: a failing loader is indistinguishable from an unset one: every query
operation returns exactly what it returns after all failing slots are cleared
(the failure contributes zero items, propagates no error and leaves the other
sources untouched), and when clearing the failing slots leaves no loader at
all, the aggregate and every query operation are empty. -/
theorem loaderFailure_isolated (config : ActivityFeedConfig) (ts : String → Int) (now : String) :
    loadAllActivity config ts now = loadAllActivity (dropFailing config) ts now ∧
    (∀ n, getRecentActivityServer config ts now n =
      getRecentActivityServer (dropFailing config) ts now n) ∧
    (∀ type limit, getActivityByTypeServer config ts now type limit =
      getActivityByTypeServer (dropFailing config) ts now type limit) ∧
    (∀ category limit, getActivityByCategoryServer config ts now category limit =
      getActivityByCategoryServer (dropFailing config) ts now category limit) ∧
    (∀ tag limit, getActivityByTagServer config ts now tag limit =
      getActivityByTagServer (dropFailing config) ts now tag limit) ∧
    (∀ query limit, searchActivityServer config ts now query limit =
      searchActivityServer (dropFailing config) ts now query limit) ∧
    (dropFailing config = resetConfig →
      loadAllActivity config ts now = [] ∧
      (∀ n, getRecentActivityServer config ts now n = []) ∧
      (∀ type limit, getActivityByTypeServer config ts now type limit = []) ∧
      (∀ category limit, getActivityByCategoryServer config ts now category limit = []) ∧
      (∀ tag limit, getActivityByTagServer config ts now tag limit = []) ∧
      (∀ query limit, searchActivityServer config ts now query limit = [])) := by
  have hAll : loadAllActivity config ts now = loadAllActivity (dropFailing config) ts now :=
    (loadAllActivity_dropFailing config ts now).symm
  refine ⟨hAll, fun n => ?_, fun t l => ?_, fun c l => ?_, fun tg l => ?_, fun q l => ?_, ?_⟩
  · simp [getRecentActivityServer, hAll]
  · simp [getActivityByTypeServer, hAll]
  · simp [getActivityByCategoryServer, hAll]
  · simp [getActivityByTagServer, hAll]
  · simp [searchActivityServer, hAll]
  · intro hEmpty
    have hnil : loadAllActivity config ts now = [] := by
      rw [hAll, hEmpty]
      rfl
    obtain ⟨h1, h2, h3, h4, h5⟩ := queryOps_of_empty config ts now hnil
    exact ⟨hnil, h1, h2, h3, h4, h5⟩

/-- C3 witness: with all three loaders failing the aggregate is empty, and with
a failing blog-post loader next to a working profile loader the recent feed is
exactly the profile-derived item. -/
theorem loaderFailure_isolated_witness :
    loadAllActivity cfgAllFail tsLen "NW" = [] ∧
    getRecentActivityServer cfgMixed tsLen "NW" 10 = [profileToActivity "NW" baseProfile] := by
  have h := loaderFailure_isolated cfgAllFail tsLen "NW"
  exact ⟨(h.2.2.2.2.2.2 rfl).1, by decide⟩

/-- C4: for every query with a non-whitespace character, the search result is a
subsequence of the date-descending aggregate (so order is preserved), an item
is in the result exactly when it is in the aggregate and the lowercased query
occurs in its lowercased title, excerpt, author (when present) or some tag, and
every item keeps its aggregate multiplicity (no duplication when several
fields match) while non-matching items appear zero times. -/
theorem searchActivity_matches (config : ActivityFeedConfig) (ts : String → Int)
    (now : String) (q : String) (h : jsTrim q ≠ "") :
    (searchActivityServer config ts now q none).Sublist (loadAllActivity config ts now) ∧
    (∀ item, item ∈ searchActivityServer config ts now q none ↔
      item ∈ loadAllActivity config ts now ∧
        (jsIncludes (jsToLower item.title) (jsToLower q) = true ∨
         jsIncludes (jsToLower item.excerpt) (jsToLower q) = true ∨
         (∃ a, item.author = some a ∧ jsIncludes (jsToLower a) (jsToLower q) = true) ∨
         (∃ tags, item.tags = some tags ∧
           ∃ tag ∈ tags, jsIncludes (jsToLower tag) (jsToLower q) = true))) ∧
    (∀ item, List.count item (searchActivityServer config ts now q none) =
      if itemMatches (jsToLower q) item = true then
        List.count item (loadAllActivity config ts now)
      else 0) := by
  have heq := searchActivity_eq_filter config ts now q none h
  refine ⟨?_, ?_, ?_⟩
  · rw [heq]
    exact List.filter_sublist _
  · intro item
    rw [heq, List.mem_filter, itemMatches_eq_true_iff]
  · intro item
    rw [heq]
    by_cases hm : itemMatches (jsToLower q) item = true
    · rw [if_pos hm, List.count_filter hm]
    · rw [if_neg hm, List.count_eq_zero]
      intro hmem
      exact hm (List.mem_filter.1 hmem).2

/-- C4 witness: the uppercase query "TEA" finds the item titled "Tea Time",
which appears exactly once in the result. -/
theorem searchActivity_matches_witness :
    itemTea ∈ searchActivityServer cfgSearch tsLen "NW" "TEA" none ∧
    List.count itemTea (searchActivityServer cfgSearch tsLen "NW" "TEA" none) = 1 := by
  have h := searchActivity_matches cfgSearch tsLen "NW" "TEA" (by decide)
  refine ⟨(h.2.1 itemTea).2 ⟨by decide, Or.inl (by decide)⟩, ?_⟩
  rw [h.2.2 itemTea, if_pos (by decide)]
  decide

/-- C10: the search query is lowercased as-is, never trimmed: every returned
item literally contains the lowercased query (whitespace included) inside its
lowercased title, excerpt, author or some tag, and an aggregate item whose
fields do not contain it is never returned. -/
theorem searchActivity_untrimmed (config : ActivityFeedConfig) (ts : String → Int)
    (now : String) (q : String) (h : jsTrim q ≠ "") :
    (∀ item ∈ searchActivityServer config ts now q none,
      (∃ l r, (jsToLower item.title).data = l ++ (jsToLower q).data ++ r) ∨
      (∃ l r, (jsToLower item.excerpt).data = l ++ (jsToLower q).data ++ r) ∨
      (∃ a, item.author = some a ∧
        ∃ l r, (jsToLower a).data = l ++ (jsToLower q).data ++ r) ∨
      (∃ tags, item.tags = some tags ∧ ∃ tag ∈ tags,
        ∃ l r, (jsToLower tag).data = l ++ (jsToLower q).data ++ r)) ∧
    (∀ item ∈ loadAllActivity config ts now, itemMatches (jsToLower q) item = false →
      item ∉ searchActivityServer config ts now q none) := by
  have heq := searchActivity_eq_filter config ts now q none h
  refine ⟨?_, ?_⟩
  · intro item hmem
    rw [heq] at hmem
    have hm := (List.mem_filter.1 hmem).2
    rw [itemMatches_eq_true_iff] at hm
    rcases hm with hm | hm | hm | hm
    · exact Or.inl ((jsIncludes_iff_exists _ _).1 hm)
    · exact Or.inr (Or.inl ((jsIncludes_iff_exists _ _).1 hm))
    · rcases hm with ⟨a, ha, hma⟩
      exact Or.inr (Or.inr (Or.inl ⟨a, ha, (jsIncludes_iff_exists _ _).1 hma⟩))
    · rcases hm with ⟨tags, htg, tag, htag, hmt⟩
      exact Or.inr (Or.inr (Or.inr ⟨tags, htg, tag, htag, (jsIncludes_iff_exists _ _).1 hmt⟩))
  · intro item _ hm hmem
    rw [heq] at hmem
    exact absurd (List.mem_filter.1 hmem).2 (by simp [hm])

/-- C10 witness: the item titled "Green" is in the aggregate and is found by
the query "Green" but not by the query " Green" with a leading space, because
no field contains the space-prefixed text. -/
theorem searchActivity_untrimmed_witness :
    itemGreen ∉ searchActivityServer cfgGreen tsLen "NW" " Green" none ∧
    itemGreen ∈ searchActivityServer cfgGreen tsLen "NW" "Green" none := by
  have h := searchActivity_untrimmed cfgGreen tsLen "NW" " Green" (by decide)
  exact ⟨h.2 itemGreen (by decide) (by decide), by decide⟩

/-- C6 counterexample: "exactly one type-specific field populated" fails on the
code: a product carrying both a raw category and a license gets two populated
type-specific fields, and a normalized post gets zero. -/
theorem typeSpecific_counterexample :
    typeSpecificPopulated (productToActivity "NW" prodBoth) = 2 ∧
    typeSpecificPopulated (productToActivity "NW" prodBoth) ≠ 1 ∧
    (blogPostToActivity "NW" basePost).map typeSpecificPopulated = some 0 := by
  decide

/-- C6 amended: every populated type-specific field corresponds to the item's
type, but their number is not always one: a normalized post populates none of
`productCategory`, `profileRole`, `license`; a profile populates only
`profileRole` and exactly when the raw `role` is present; a product populates
only `productCategory` and `license`, each exactly when the raw field is
present. -/
theorem typeSpecific_matches_type (now : String) (post : BlogPostItem) (item : ActivityItem)
    (profile : ProfileItem) (product : ProductItem) :
    (blogPostToActivity now post = some item →
      item.type = ActivityType.post ∧
      item.productCategory = none ∧ item.profileRole = none ∧ item.license = none) ∧
    ((profileToActivity now profile).type = ActivityType.profile ∧
     (profileToActivity now profile).productCategory = none ∧
     (profileToActivity now profile).license = none ∧
     (profileToActivity now profile).profileRole = profile.role) ∧
    ((productToActivity now product).type = ActivityType.product ∧
     (productToActivity now product).profileRole = none ∧
     (productToActivity now product).productCategory = product.category ∧
     (productToActivity now product).license = product.license) := by
  refine ⟨?_, ⟨rfl, rfl, rfl, rfl⟩, ⟨rfl, rfl, rfl, rfl⟩⟩
  intro h
  unfold blogPostToActivity at h
  split at h
  · exact Option.noConfusion h
  · have heq := Option.some.inj h
    subst heq
    exact ⟨rfl, rfl, rfl, rfl⟩

/-- C6 witness: the amended statement instantiated at `basePost`, whose
normalization populates no type-specific field. -/
theorem typeSpecific_matches_type_witness :
    itemHello.type = ActivityType.post ∧
    itemHello.productCategory = none ∧ itemHello.profileRole = none ∧
    itemHello.license = none :=
  (typeSpecific_matches_type "NW" basePost itemHello baseProfile prodBoth).1 (by decide)

/-- C7 counterexample: a post whose `excerpt` is present but the empty string
does not normalize to the empty excerpt the claim demands: the truthiness
fallback replaces it with the non-empty `description`. -/
theorem excerptPresentEmpty_counterexample :
    postEmptyExcerpt.excerpt = some "" ∧
    (blogPostToActivity "NW" postEmptyExcerpt).map ActivityItem.excerpt = some "dd2" ∧
    ("dd2" : String) ≠ "" := by
  decide

/-- C7 amended: for a non-excluded post and for every product, the normalized
excerpt is the raw `excerpt` when it is present and non-empty, otherwise the
`description` when it is present and non-empty, otherwise the empty string (a
present-but-empty `excerpt` falls through like an absent one). -/
theorem excerptFallback_amended (now : String) (post : BlogPostItem) (item : ActivityItem)
    (product : ProductItem) :
    (blogPostToActivity now post = some item →
      ((∀ e, post.excerpt = some e → e ≠ "" → item.excerpt = e) ∧
       ((post.excerpt = none ∨ post.excerpt = some "") →
         ∀ d, post.description = some d → d ≠ "" → item.excerpt = d) ∧
       ((post.excerpt = none ∨ post.excerpt = some "") →
         (post.description = none ∨ post.description = some "") → item.excerpt = ""))) ∧
    ((∀ e, product.excerpt = some e → e ≠ "" → (productToActivity now product).excerpt = e) ∧
     ((product.excerpt = none ∨ product.excerpt = some "") →
       ∀ d, product.description = some d → d ≠ "" →
         (productToActivity now product).excerpt = d) ∧
     ((product.excerpt = none ∨ product.excerpt = some "") →
       (product.description = none ∨ product.description = some "") →
       (productToActivity now product).excerpt = "")) := by
  obtain ⟨h1, h2, h3⟩ := excerptChain post.excerpt post.description
  obtain ⟨g1, g2, g3⟩ := excerptChain product.excerpt product.description
  refine ⟨fun h => ⟨?_, ?_, ?_⟩, ⟨?_, ?_, ?_⟩⟩
  · intro e he hne
    rw [blogPost_excerpt_eq now post item h]
    exact h1 e he hne
  · intro ha d hd hdne
    rw [blogPost_excerpt_eq now post item h]
    exact h2 ha d hd hdne
  · intro ha hb
    rw [blogPost_excerpt_eq now post item h]
    exact h3 ha hb
  · intro e he hne
    exact g1 e he hne
  · intro ha d hd hdne
    exact g2 ha d hd hdne
  · intro ha hb
    exact g3 ha hb

/-- C7 witness: the amended statement instantiated at `postEmptyExcerpt`: its
present-but-empty excerpt falls through to the description "dd2". -/
theorem excerptFallback_amended_witness : itemEmptyEx.excerpt = "dd2" :=
  ((excerptFallback_amended "NW" postEmptyExcerpt itemEmptyEx prodBoth).1 (by decide)).2.1
    (Or.inr (by decide)) "dd2" rfl (by decide)

/-- C8 counterexample: two calls over unchanged configuration and loader output
are not identical when a source item carries no date: the item's `date` is the
wall-clock reading of each call, and the two calls observe different readings
("T1" and "T2"), so both the aggregate and the recent feed differ. -/
theorem idempotence_counterexample :
    loadAllActivity cfgNoDate tsLen "T1" ≠ loadAllActivity cfgNoDate tsLen "T2" ∧
    getRecentActivityServer cfgNoDate tsLen "T1" ≠ getRecentActivityServer cfgNoDate tsLen "T2" := by
  decide

/-- C8 amended: repeated calls with unchanged configuration and loader outputs
agree when the two calls observe the same wall-clock reading, and whenever
every loaded item carries an explicit (non-empty) date the results do not
depend on the wall clock at all, so any two calls yield identical results. -/
theorem queries_clock_independent (config : ActivityFeedConfig) (ts : String → Int)
    (now1 now2 : String)
    (hb : ∀ post ∈ loaderItems config.loadBlogPosts, postHasDate post = true)
    (hr : ∀ profile ∈ loaderItems config.loadProfiles, profileHasDate profile = true)
    (hd : ∀ product ∈ loaderItems config.loadProducts, productHasDate product = true) :
    loadAllActivity config ts now1 = loadAllActivity config ts now2 ∧
    (∀ n, getRecentActivityServer config ts now1 n = getRecentActivityServer config ts now2 n) ∧
    (∀ type limit, getActivityByTypeServer config ts now1 type limit =
      getActivityByTypeServer config ts now2 type limit) ∧
    (∀ category limit, getActivityByCategoryServer config ts now1 category limit =
      getActivityByCategoryServer config ts now2 category limit) ∧
    (∀ tag limit, getActivityByTagServer config ts now1 tag limit =
      getActivityByTagServer config ts now2 tag limit) ∧
    (∀ query limit, searchActivityServer config ts now1 query limit =
      searchActivityServer config ts now2 query limit) := by
  have hAll := loadAllActivity_clock config ts now1 now2 hb hr hd
  refine ⟨hAll, fun n => ?_, fun t l => ?_, fun c l => ?_, fun tg l => ?_, fun q l => ?_⟩
  · simp [getRecentActivityServer, hAll]
  · simp [getActivityByTypeServer, hAll]
  · simp [getActivityByCategoryServer, hAll]
  · simp [getActivityByTagServer, hAll]
  · simp [searchActivityServer, hAll]

/-- C8 witness: with a dated post configured, calls at the distinct clock
readings "T1" and "T2" agree on the aggregate. -/
theorem queries_clock_independent_witness :
    loadAllActivity cfgPosts tsLen "T1" = loadAllActivity cfgPosts tsLen "T2" :=
  (queries_clock_independent cfgPosts tsLen "T1" "T2" (by decide) (by decide) (by decide)).1
